import Mathlib

/-!
Verification of the Dart backend of serde-generate
(src/serde-generate/src/dart.rs) against its specification.

The generator walks a registry of container formats and emits Dart source
code.  We embed the emission functions shallowly: every Rust function that
writes text through the `IndentedWriter` becomes a Lean function producing
the list of emitted lines (indentation management lives in a sibling crate
outside src/ and is abstracted away; the spacing baked into the template
literals themselves is preserved).  Rust panics become `Except.error`.

The data model (`Format`, `Named`, `ContainerFormat`, `VariantFormat`,
`Registry` from the serde-reflection crate) and the helpers
`common::mangle_type` and `FormatHolder::visit` are code of this repository
that is not under src/; they are modelled from the spec (sections 3 and 4.3)
as indicated by their doc comments.
-/

namespace SerdeDart

set_option maxRecDepth 8192

/-- Modelled from the spec (section 3): recursive descriptor of a value's shape,
mirroring serde_reflection::Format.  `Variable` is the unresolved placeholder
(its inference payload is irrelevant to the generator and omitted). -/
inductive Format where
  | Variable : Format
  | TypeName : String → Format
  | Unit : Format
  | Bool : Format
  | I8 : Format
  | I16 : Format
  | I32 : Format
  | I64 : Format
  | I128 : Format
  | U8 : Format
  | U16 : Format
  | U32 : Format
  | U64 : Format
  | U128 : Format
  | F32 : Format
  | F64 : Format
  | Char : Format
  | Str : Format
  | Bytes : Format
  | Option : Format → Format
  | Seq : Format → Format
  | Map : Format → Format → Format
  | Tuple : List Format → Format
  | TupleArray : Format → Nat → Format

/-- Modelled from the spec (section 3): a (name, value) pair,
mirroring serde_reflection::Named. -/
structure Named (α : Type) where
  name : String
  value : α

/-- Modelled from the spec (section 3): variant shapes,
mirroring serde_reflection::VariantFormat. -/
inductive VariantFormat where
  | Variable : VariantFormat
  | Unit : VariantFormat
  | NewType : Format → VariantFormat
  | Tuple : List Format → VariantFormat
  | Struct : List (Named Format) → VariantFormat

/-- Modelled from the spec (section 3): container shapes,
mirroring serde_reflection::ContainerFormat.  The enum's
BTreeMap from u32 tags to variants is modelled as an association
list in ascending tag order (BTreeMap iteration order). -/
inductive ContainerFormat where
  | UnitStruct : ContainerFormat
  | NewTypeStruct : Format → ContainerFormat
  | TupleStruct : List Format → ContainerFormat
  | Struct : List (Named Format) → ContainerFormat
  | Enum : List (Nat × Named VariantFormat) → ContainerFormat

/-- Modelled from the spec (section 3): the registry, a BTreeMap from container
name to ContainerFormat, modelled as an association list in iteration order. -/
def Registry : Type := List (String × ContainerFormat)

/-- Language-independent generator configuration (the fields of
CodeGeneratorConfig used by dart.rs).  Encodings are represented by their
lowercase names as returned by Encoding::name() ("bincode", "bcs"). -/
structure CodeGeneratorConfig where
  module_name : String
  serialization : Bool
  encodings : List String
  external_definitions : List (String × List String)

/-- CamelCase conversion as applied by heck to the single-word lowercase
encoding names used here ("bcs" to "Bcs", "bincode" to "Bincode"):
capitalize the first character. -/
def camelCase (s : String) : String :=
  match s.toList with
  | [] => ""
  | c :: rest => String.mk (c.toUpper :: rest)

/-- The qualified-name map built in CodeGenerator::new (dart.rs lines 33-39):
for each (namespace, names) entry of external_definitions, each name maps to
"namespace.name".  Note that the source drops this map: the constructed
CodeGenerator stores only the config. -/
def externalQualifiedNames (config : CodeGeneratorConfig) : List (String × String) :=
  (config.external_definitions.map
    (fun p => p.2.map (fun n => (n, p.1 ++ "." ++ n)))).flatten

/-- DartEmitter::quote_qualified_name (dart.rs lines 247-249): returns the name
unchanged (the method ignores the emitter state entirely). -/
def quoteQualifiedName (name : String) : String :=
  name

mutual
/-- Modelled from the spec (section 4.3): common::mangle_type, the canonical
signature of a Format, a deterministic string encoding the shape and all
nested element signatures (common.rs is outside src/).  Fails on the
unresolved placeholder. -/
def mangle : Format → Except String String
  | .TypeName x => .ok x
  | .Unit => .ok "unit"
  | .Bool => .ok "bool"
  | .I8 => .ok "i8"
  | .I16 => .ok "i16"
  | .I32 => .ok "i32"
  | .I64 => .ok "i64"
  | .I128 => .ok "i128"
  | .U8 => .ok "u8"
  | .U16 => .ok "u16"
  | .U32 => .ok "u32"
  | .U64 => .ok "u64"
  | .U128 => .ok "u128"
  | .F32 => .ok "f32"
  | .F64 => .ok "f64"
  | .Char => .ok "char"
  | .Str => .ok "str"
  | .Bytes => .ok "bytes"
  | .Option f =>
    match mangle f with
    | .error e => .error e
    | .ok s => .ok ("option_" ++ s)
  | .Seq f =>
    match mangle f with
    | .error e => .error e
    | .ok s => .ok ("vector_" ++ s)
  | .Map k v =>
    match mangle k with
    | .error e => .error e
    | .ok ks =>
      match mangle v with
      | .error e => .error e
      | .ok vs => .ok ("map_" ++ ks ++ "_to_" ++ vs)
  | .Tuple fs =>
    match mangleList fs with
    | .error e => .error e
    | .ok ss => .ok ("tuple" ++ toString fs.length ++ "_" ++ String.intercalate "_" ss)
  | .TupleArray c n =>
    match mangle c with
    | .error e => .error e
    | .ok s => .ok ("array" ++ toString n ++ "_" ++ s ++ "_array")
  | .Variable => .error "unexpected value"

/-- Signatures of a list of formats, for tuple signatures. -/
def mangleList : List Format → Except String (List String)
  | [] => .ok []
  | f :: fs =>
    match mangle f with
    | .error e => .error e
    | .ok s =>
      match mangleList fs with
      | .error e => .error e
      | .ok ss => .ok (s :: ss)
end

mutual
/-- DartEmitter::quote_type (dart.rs lines 307-338): map a Format to a Dart
type expression.  The Rust code panics on the unresolved placeholder; this is
modelled as an error result. -/
def quoteType : Format → Except String String
  | .TypeName x => .ok (quoteQualifiedName x)
  | .Unit => .ok "Unit"
  | .Bool => .ok "bool"
  | .I8 => .ok "int"
  | .I16 => .ok "int"
  | .I32 => .ok "int"
  | .I64 => .ok "int"
  | .I128 => .ok "Int128"
  | .U8 => .ok "int"
  | .U16 => .ok "int"
  | .U32 => .ok "int"
  | .U64 => .ok "int"
  | .U128 => .ok "Int128"
  | .F32 => .ok "float"
  | .F64 => .ok "double"
  | .Char => .ok "int"
  | .Str => .ok "String"
  | .Bytes => .ok "Bytes"
  | .Option f =>
    match quoteType f with
    | .error e => .error e
    | .ok t => .ok ("Optional<" ++ t ++ ">")
  | .Seq f =>
    match quoteType f with
    | .error e => .error e
    | .ok t => .ok ("List<" ++ t ++ ">")
  | .Map k v =>
    match quoteType k with
    | .error e => .error e
    | .ok tk =>
      match quoteType v with
      | .error e => .error e
      | .ok tv => .ok ("Map<" ++ tk ++ ", " ++ tv ++ ">")
  | .Tuple fs =>
    match quoteTypeList fs with
    | .error e => .error e
    | .ok ts => .ok ("Tuple" ++ toString fs.length ++ "<" ++ String.intercalate ", " ts ++ ">")
  | .TupleArray c _ =>
    match quoteType c with
    | .error e => .error e
    | .ok t => .ok ("List<" ++ t ++ ">")
  | .Variable => .error "unexpected value"

/-- DartEmitter::quote_types (dart.rs lines 340-346), before joining. -/
def quoteTypeList : List Format → Except String (List String)
  | [] => .ok []
  | f :: fs =>
    match quoteType f with
    | .error e => .error e
    | .ok t =>
      match quoteTypeList fs with
      | .error e => .error e
      | .ok ts => .ok (t :: ts)
end

/-- DartEmitter::quote_serialize_value (dart.rs lines 348-376): the serialize
statement for a value expression of the given Format.  Composite shapes route
to a TraitHelpers call named by the canonical signature. -/
def quoteSerializeValue (value : String) (format : Format) : Except String String :=
  match format with
  | .TypeName _ => .ok (value ++ ".serialize(serializer);")
  | .Unit => .ok ("serializer.serialize_unit(" ++ value ++ ");")
  | .Bool => .ok ("serializer.serialize_bool(" ++ value ++ ");")
  | .I8 => .ok ("serializer.serialize_i8(" ++ value ++ ");")
  | .I16 => .ok ("serializer.serialize_i16(" ++ value ++ ");")
  | .I32 => .ok ("serializer.serialize_i32(" ++ value ++ ");")
  | .I64 => .ok ("serializer.serialize_i64(" ++ value ++ ");")
  | .I128 => .ok ("serializer.serialize_i128(" ++ value ++ ");")
  | .U8 => .ok ("serializer.serialize_u8(" ++ value ++ ");")
  | .U16 => .ok ("serializer.serialize_u16(" ++ value ++ ");")
  | .U32 => .ok ("serializer.serialize_u32(" ++ value ++ ");")
  | .U64 => .ok ("serializer.serialize_u64(" ++ value ++ ");")
  | .U128 => .ok ("serializer.serialize_u128(" ++ value ++ ");")
  | .F32 => .ok ("serializer.serialize_f32(" ++ value ++ ");")
  | .F64 => .ok ("serializer.serialize_f64(" ++ value ++ ");")
  | .Char => .ok ("serializer.serialize_char(" ++ value ++ ");")
  | .Str => .ok ("serializer.serialize_str(" ++ value ++ ");")
  | .Bytes => .ok ("serializer.serialize_bytes(" ++ value ++ ");")
  | f =>
    match mangle f with
    | .error e => .error e
    | .ok m =>
      .ok (quoteQualifiedName "TraitHelpers" ++ ".serialize_" ++ m
        ++ "(" ++ value ++ ", serializer);")

/-- DartEmitter::quote_deserialize (dart.rs lines 378-408): the deserialize
expression for a Format. -/
def quoteDeserialize (format : Format) : Except String String :=
  match format with
  | .TypeName name => .ok (quoteQualifiedName name ++ ".deserialize(deserializer)")
  | .Unit => .ok "deserializer.deserialize_unit()"
  | .Bool => .ok "deserializer.deserialize_bool()"
  | .I8 => .ok "deserializer.deserialize_i8()"
  | .I16 => .ok "deserializer.deserialize_i16()"
  | .I32 => .ok "deserializer.deserialize_i32()"
  | .I64 => .ok "deserializer.deserialize_i64()"
  | .I128 => .ok "deserializer.deserialize_i128()"
  | .U8 => .ok "deserializer.deserialize_u8()"
  | .U16 => .ok "deserializer.deserialize_u16()"
  | .U32 => .ok "deserializer.deserialize_u32()"
  | .U64 => .ok "deserializer.deserialize_u64()"
  | .U128 => .ok "deserializer.deserialize_u128()"
  | .F32 => .ok "deserializer.deserialize_f32()"
  | .F64 => .ok "deserializer.deserialize_f64()"
  | .Char => .ok "deserializer.deserialize_char()"
  | .Str => .ok "deserializer.deserialize_str()"
  | .Bytes => .ok "deserializer.deserialize_bytes()"
  | f =>
    match mangle f with
    | .error e => .error e
    | .ok m =>
      .ok (quoteQualifiedName "TraitHelpers" ++ ".deserialize_" ++ m ++ "(deserializer)")

/-- DartEmitter::to_json (dart.rs lines 251-276): the JSON key/value fragment
emitted for a named field by the generated toJson. -/
def toJson (format : Named Format) : String :=
  match format.value with
  | .TypeName _ => "\"" ++ format.name ++ "\" : " ++ format.name ++ ".toJson() "
  | .Unit | .Bool | .I8 | .I16 | .I32 | .I64 | .I128
  | .U8 | .U16 | .U32 | .U64 | .U128 | .F32 | .F64 =>
    "\"" ++ format.name ++ "\" : " ++ format.name ++ " "
  | .Char | .Str => "\"" ++ format.name ++ "\" : " ++ format.name ++ " "
  | .Bytes | .Variable | .Map _ _ =>
    "\"" ++ format.name ++ "\" : " ++ format.name ++ ".toJson() "
  | .Option _ =>
    "\"" ++ format.name ++ "\" : " ++ format.name ++ ".isEmpty?null:"
      ++ format.name ++ ".value "
  | .Seq t =>
    match t with
    | .TypeName _ =>
      "\x27" ++ format.name ++ "\x27 : " ++ format.name
        ++ ".map((f) => f.toJson()).toList()"
    | _ => "\x27" ++ format.name ++ "\x27 : " ++ format.name
  | .Tuple _ => "\"" ++ format.name ++ "\" : " ++ format.name ++ " "
  | .TupleArray _ _ => "\"" ++ format.name ++ "\" : " ++ format.name ++ " "

/-- DartEmitter::from_json (dart.rs lines 278-305): the field-initializer
fragment emitted for a named field by the generated fromJson/loadJson. -/
def fromJson (format : Named Format) : Except String String :=
  match format.value with
  | .Unit | .Bool | .I8 | .I16 | .I32 | .I64 | .I128
  | .U8 | .U16 | .U32 | .U64 | .U128 | .F32 | .F64 | .Char | .Str =>
    .ok (format.name ++ " = json[\x27" ++ format.name ++ "\x27]")
  | .Bytes | .Variable | .Map _ _ =>
    .ok (format.name ++ " = Bytes.fromJson(json[\x27" ++ format.name ++ "\x27])")
  | .TypeName t =>
    .ok (format.name ++ " = " ++ t ++ ".fromJson(json[\x27" ++ format.name ++ "\x27])")
  | .Option _ => .ok (format.name ++ " = json[\x27" ++ format.name ++ "\x27]")
  | .Seq t =>
    match t with
    | .TypeName name =>
      .ok (format.name ++ " = List<" ++ name ++ ">.from(json[\x27" ++ format.name
        ++ "\x27].map((f) => " ++ name ++ ".fromJson(f)).toList())")
    | _ => .ok (format.name ++ " = json[\x27" ++ format.name ++ "\x27]")
  | .Tuple _ => .ok (format.name ++ " = " ++ format.name)
  | .TupleArray content _ =>
    match quoteType content with
    | .error e => .error e
    | .ok t =>
      .ok (format.name ++ " = List<" ++ t ++ ">.from(json[\x27" ++ format.name ++ "\x27])")

/-- Mapping a fallible function over a list, mirroring a Rust loop of
fallible emissions (write! returning Result): the first error aborts. -/
def exMap {α β : Type} (f : α → Except String β) : List α → Except String (List β)
  | [] => .ok []
  | a :: l =>
    match f a with
    | .error e => .error e
    | .ok b =>
      match exMap f l with
      | .error e => .error e
      | .ok bs => .ok (b :: bs)

/-- Concatenation of fallible per-item line emissions. -/
def exFlatMap {α : Type} (f : α → Except String (List String)) (l : List α) :
    Except String (List String) :=
  match exMap f l with
  | .error e => .error e
  | .ok ls => .ok ls.flatten

mutual
/-- Modelled from the spec (section 4.3): FormatHolder::visit on a Format
(serde-reflection is outside src/) — a depth-first traversal listing every
visited Format node, the node itself included; it fails on the unresolved
placeholder. -/
def formatVisit : Format → Except String (List Format)
  | .Variable => .error "unexpected value"
  | .Option f =>
    match formatVisit f with
    | .error e => .error e
    | .ok l => .ok (.Option f :: l)
  | .Seq f =>
    match formatVisit f with
    | .error e => .error e
    | .ok l => .ok (.Seq f :: l)
  | .Map k v =>
    match formatVisit k with
    | .error e => .error e
    | .ok lk =>
      match formatVisit v with
      | .error e => .error e
      | .ok lv => .ok (.Map k v :: (lk ++ lv))
  | .Tuple fs =>
    match formatVisitList fs with
    | .error e => .error e
    | .ok l => .ok (.Tuple fs :: l)
  | .TupleArray c n =>
    match formatVisit c with
    | .error e => .error e
    | .ok l => .ok (.TupleArray c n :: l)
  | f => .ok [f]

/-- Traversal of a list of formats, in order. -/
def formatVisitList : List Format → Except String (List Format)
  | [] => .ok []
  | f :: fs =>
    match formatVisit f with
    | .error e => .error e
    | .ok l =>
      match formatVisitList fs with
      | .error e => .error e
      | .ok ls => .ok (l ++ ls)
end

/-- Modelled from the spec (section 4.3): traversal of every Format appearing
in a variant. -/
def variantVisit : VariantFormat → Except String (List Format)
  | .Variable => .error "unexpected value"
  | .Unit => .ok []
  | .NewType f => formatVisit f
  | .Tuple fs => formatVisitList fs
  | .Struct fields => formatVisitList (fields.map (fun f => f.value))

/-- Modelled from the spec (section 4.3): traversal of every Format reachable
from a container (FormatHolder::visit on a ContainerFormat). -/
def containerVisit : ContainerFormat → Except String (List Format)
  | .UnitStruct => .ok []
  | .NewTypeStruct f => formatVisit f
  | .TupleStruct fs => formatVisitList fs
  | .Struct fields => formatVisitList (fields.map (fun f => f.value))
  | .Enum variants => exFlatMapFormats variants
where
  /-- Traversal of each enum variant in declared order. -/
  exFlatMapFormats : List (Nat × Named VariantFormat) → Except String (List Format)
    | [] => .ok []
    | (_, v) :: rest =>
      match variantVisit v.value with
      | .error e => .error e
      | .ok l =>
        match exFlatMapFormats rest with
        | .error e => .error e
        | .ok ls => .ok (l ++ ls)

/-- Every Format visited from every container of the registry, in registry
order (dart.rs lines 421-431 loop over registry.values()). -/
def registryFormats (registry : Registry) : Except String (List Format) :=
  match registry with
  | [] => .ok []
  | (_, c) :: rest =>
    match containerVisit c with
    | .error e => .error e
    | .ok l =>
      match registryFormats rest with
      | .error e => .error e
      | .ok ls => .ok (l ++ ls)

/-- DartEmitter::needs_helper (dart.rs lines 442-448). -/
def needsHelper : Format → Bool
  | .Option _ => true
  | .Seq _ => true
  | .Map _ _ => true
  | .Tuple _ => true
  | .TupleArray _ _ => true
  | _ => false

/-- Strict character order by code point (signatures are ASCII, where this
agrees with the byte order Rust's BTreeMap of String keys uses). -/
def charLtB (a b : Char) : Bool := a.toNat < b.toNat

/-- Strict lexicographic order on character lists. -/
def listLtB : List Char → List Char → Bool
  | [], [] => false
  | [], _ :: _ => true
  | _ :: _, [] => false
  | a :: as, b :: bs =>
    if charLtB a b then true else if charLtB b a then false else listLtB as bs

/-- Strict lexicographic order on strings. -/
def strLtB (a b : String) : Bool := listLtB a.data b.data

/-- Insertion into the signature-keyed BTreeMap of dart.rs line 426, modelled
as a strictly sorted association list: the value is replaced when the key is
already present. -/
def tableInsert (k : String) (v : Format) :
    List (String × Format) → List (String × Format)
  | [] => [(k, v)]
  | (k', v') :: rest =>
    if strLtB k k' then (k, v) :: (k', v') :: rest
    else if strLtB k' k then (k', v') :: tableInsert k v rest
    else (k, v) :: rest

/-- Folding the visited formats into the helper table (the closure at dart.rs
lines 424-429): every format needing a helper is inserted under its canonical
signature. -/
def insertAll : List Format → List (String × Format) → Except String (List (String × Format))
  | [], t => .ok t
  | f :: fs, t =>
    if needsHelper f then
      match mangle f with
      | .error e => .error e
      | .ok k => insertAll fs (tableInsert k f t)
    else insertAll fs t

/-- The deduplicated helper table of output_trait_helpers (dart.rs lines
421-431): signature-keyed, iterated in ascending signature order. -/
def traitHelperTable (registry : Registry) : Except String (List (String × Format)) :=
  match registryFormats registry with
  | .error e => .error e
  | .ok fs => insertAll fs []

/-- DartEmitter::output_serialization_helper (dart.rs lines 450-538): the
lines of the serialize helper emitted for one table entry. -/
def outputSerializationHelper (name : String) (format0 : Format) :
    Except String (List String) :=
  match quoteType format0 with
  | .error e => .error e
  | .ok t0 =>
    match body format0 with
    | .error e => .error e
    | .ok bodyLines =>
      .ok (("static void serialize_" ++ name ++ "(" ++ t0
              ++ " value, BinarySerializer serializer) \x7b")
           :: bodyLines ++ ["\x7d", ""])
where
  /-- The match on the shape (dart.rs lines 460-535). -/
  body : Format → Except String (List String)
    | .Option format =>
      match quoteSerializeValue "value.value" format with
      | .error e => .error e
      | .ok stmt =>
        .ok ["if (value.isPresent) \x7b",
             "    serializer.serialize_option_tag(true);",
             "    " ++ stmt,
             "\x7d else \x7b",
             "    serializer.serialize_option_tag(false);",
             "\x7d"]
    | .Seq format =>
      match quoteType format with
      | .error e => .error e
      | .ok t =>
        match quoteSerializeValue "item" format with
        | .error e => .error e
        | .ok stmt =>
          .ok ["serializer.serialize_len(value.length);",
               "for (" ++ t ++ " item in value) \x7b",
               "    " ++ stmt,
               "\x7d"]
    | .Map key value =>
      match quoteType key with
      | .error e => .error e
      | .ok tk =>
        match quoteType value with
        | .error e => .error e
        | .ok tv =>
          match quoteSerializeValue "entry.getKey()" key with
          | .error e => .error e
          | .ok sk =>
            match quoteSerializeValue "entry.getValue()" value with
            | .error e => .error e
            | .ok sv =>
              .ok ["serializer.serialize_len(value.length);",
                   "List<int> offsets = new List<int>();",
                   "int count = 0;",
                   "for (Map.Entry<" ++ tk ++ ", " ++ tv ++ "> entry : value.entrySet()) \x7b",
                   "    offsets[count++] = serializer.get_buffer_offset();",
                   "    " ++ sk,
                   "    " ++ sv,
                   "\x7d",
                   "serializer.sort_map_entries(offsets);"]
    | .Tuple formats =>
      match exMap (fun p => quoteSerializeValue ("value.item" ++ toString (p.1 + 1)) p.2)
              (formats.enum) with
      | .error e => .error e
      | .ok stmts => .ok stmts
    | .TupleArray content size =>
      match quoteType content with
      | .error e => .error e
      | .ok t =>
        match quoteSerializeValue "item" content with
        | .error e => .error e
        | .ok stmt =>
          .ok ["assert (value.length == " ++ toString size ++ ");",
               "for (" ++ t ++ " item in value) \x7b",
               "    " ++ stmt,
               "\x7d"]
    | _ => .error "unexpected case"

/-- DartEmitter::output_deserialization_helper (dart.rs lines 540-649): the
lines of the deserialize helper emitted for one table entry. -/
def outputDeserializationHelper (name : String) (format0 : Format) :
    Except String (List String) :=
  match quoteType format0 with
  | .error e => .error e
  | .ok t0 =>
    match body format0 with
    | .error e => .error e
    | .ok bodyLines =>
      .ok (("static " ++ t0 ++ " deserialize_" ++ name ++ "(BinaryDeserializer deserializer) \x7b")
           :: bodyLines ++ ["\x7d", ""])
where
  /-- The match on the shape (dart.rs lines 550-646). -/
  body : Format → Except String (List String)
    | .Option format =>
      match quoteDeserialize format with
      | .error e => .error e
      | .ok d =>
        .ok ["bool tag = deserializer.deserialize_option_tag();",
             "if (!tag) \x7b",
             "    return Optional.empty();",
             "\x7d else \x7b",
             "    return Optional.of(" ++ d ++ ");",
             "\x7d"]
    | .Seq format =>
      match quoteType format with
      | .error e => .error e
      | .ok t =>
        match quoteDeserialize format with
        | .error e => .error e
        | .ok d =>
          .ok ["int length = deserializer.deserialize_len();",
               "List<" ++ t ++ "> obj = new List<" ++ t ++ ">(length);",
               "for (int i = 0; i < length; i++) \x7b",
               "    obj[i]=" ++ d ++ ";",
               "\x7d",
               "return obj;"]
    | .Map key value =>
      match quoteType key with
      | .error e => .error e
      | .ok tk =>
        match quoteType value with
        | .error e => .error e
        | .ok tv =>
          match quoteDeserialize key with
          | .error e => .error e
          | .ok dk =>
            match quoteDeserialize value with
            | .error e => .error e
            | .ok dv =>
              .ok ["int length = deserializer.deserialize_len();",
                   "Map<" ++ tk ++ ", " ++ tv ++ "> obj = new HashMap<" ++ tk ++ ", " ++ tv ++ ">();",
                   "int previous_key_start = 0;",
                   "int previous_key_end = 0;",
                   "for (int i = 0; i < length; i++) \x7b",
                   "    int key_start = deserializer.get_buffer_offset();",
                   "    " ++ tk ++ " key = " ++ dk ++ ";",
                   "    int key_end = deserializer.get_buffer_offset();",
                   "    if (i > 0) \x7b",
                   "        deserializer.check_that_key_slices_are_increasing(",
                   "            new Slice(previous_key_start, previous_key_end),",
                   "            new Slice(key_start, key_end));",
                   "    \x7d",
                   "    previous_key_start = key_start;",
                   "    previous_key_end = key_end;",
                   "    " ++ tv ++ " value = " ++ dv ++ ";",
                   "    obj.put(key, value);",
                   "\x7d",
                   "return obj;"]
    | .Tuple formats =>
      match quoteType (.Tuple formats) with
      | .error e => .error e
      | .ok t0 =>
        match exMap quoteDeserialize formats with
        | .error e => .error e
        | .ok ds =>
          .ok (("return new " ++ t0 ++ "(") :: commaLines ds ++ [");"])
    | .TupleArray content size =>
      match quoteType content with
      | .error e => .error e
      | .ok t =>
        match quoteDeserialize content with
        | .error e => .error e
        | .ok d =>
          .ok ["List<" ++ t ++ "> obj = new List<" ++ t ++ ">.filled(" ++ toString size ++ ", 0);",
               "for (int i = 0; i < " ++ toString size ++ "; i++) \x7b",
               "    obj[i] = " ++ d ++ ";",
               "\x7d",
               "return obj;"]
    | _ => .error "unexpected case"
  /-- The joined argument list "\n    d1,\n    d2" split into lines: every
  argument on its own line, all but the last with a trailing comma. -/
  commaLines : List String → List String
    | [] => []
    | [d] => ["    " ++ d]
    | d :: rest => ("    " ++ d ++ ",") :: commaLines rest

/-- The serialize/deserialize pair emitted for one helper-table entry
(dart.rs lines 434-437 loop body). -/
def helperPairLines (entry : String × Format) : Except String (List String) :=
  match outputSerializationHelper entry.1 entry.2 with
  | .error e => .error e
  | .ok s =>
    match outputDeserializationHelper entry.1 entry.2 with
    | .error e => .error e
    | .ok d => .ok (s ++ d)

/-- DartEmitter::output_trait_helpers (dart.rs lines 420-440): build the
deduplicated table, then emit one helper pair per entry in ascending
signature order inside the TraitHelpers class. -/
def outputTraitHelpers (registry : Registry) : Except String (List String) :=
  match traitHelperTable registry with
  | .error e => .error e
  | .ok table =>
    match exFlatMap helperPairLines table with
    | .error e => .error e
    | .ok body => .ok ("class TraitHelpers \x7b" :: body ++ ["\x7d", ""])

/-- Field declaration lines (dart.rs lines 697-709): one declaration per field
in declared order, followed by a blank line when there are fields. -/
def fieldDeclLines (fields : List (Named Format)) : Except String (List String) :=
  match exMap (fun f =>
      match quoteType f.value with
      | .error e => .error e
      | .ok t => .ok (t ++ " " ++ f.name ++ ";")) fields with
  | .error e => .error e
  | .ok ls => .ok (ls ++ if fields.isEmpty then [] else [""])

/-- Constructor lines (dart.rs lines 710-729): parameter list in declared
order, one null assert per field, then one assignment per field. -/
def constructorLines (name : String) (fields : List (Named Format)) :
    Except String (List String) :=
  match exMap (fun f =>
      match quoteType f.value with
      | .error e => .error e
      | .ok t => .ok (t ++ " " ++ f.name)) fields with
  | .error e => .error e
  | .ok params =>
    .ok ((name ++ "(" ++ String.intercalate ", " params ++ ") \x7b")
      :: fields.map (fun f => "assert (" ++ f.name ++ " != null);")
      ++ fields.map (fun f => "this." ++ f.name ++ " = " ++ f.name ++ ";")
      ++ ["\x7d"])

/-- The variant-tag statement written before any field when emitting a
variant's serialize (dart.rs lines 735-737). -/
def variantTagLines : Option Nat → List String
  | some index => ["serializer.serialize_variant_index(" ++ toString index ++ ");"]
  | none => []

/-- DartEmitter::output_class_serialize_for_encoding (dart.rs lines 903-915). -/
def outputClassSerializeForEncoding (encoding : String) : List String :=
  ["",
   "Uint8List " ++ encoding ++ "Serialize() \x7b",
   "    var serializer = new " ++ camelCase encoding ++ "Serializer();",
   "    serialize(serializer);",
   "    return serializer.get_bytes();",
   "\x7d"]

/-- DartEmitter::output_class_deserialize_for_encoding (dart.rs lines
917-937): the decode-from-bytes convenience operation, which throws when the
deserializer's buffer offset is below the input length after the value has
been read. -/
def outputClassDeserializeForEncoding (name : String) (encoding : String) : List String :=
  ["",
   "static " ++ name ++ " " ++ encoding ++ "Deserialize(Uint8List input)  \x7b",
   "   var deserializer = new " ++ camelCase encoding ++ "Deserializer(input);",
   "    " ++ name ++ " value = deserialize(deserializer);",
   "    if (deserializer.get_buffer_offset() < input.length) \x7b",
   "         throw new Exception(\"Some input bytes were not read\");",
   "    \x7d",
   "    return value;",
   "\x7d"]

/-- The serialize operation of a struct or variant class (dart.rs lines
732-753): empty unless serialization is configured; writes the variant tag
first when emitting a variant, then every field in declared order; for a
plain container the per-encoding encode-to-bytes operations follow. -/
def serializeSectionLines (config : CodeGeneratorConfig) (variantIndex : Option Nat)
    (fields : List (Named Format)) : Except String (List String) :=
  if config.serialization then
    match exMap (fun f => quoteSerializeValue f.name f.value) fields with
    | .error e => .error e
    | .ok stmts =>
      .ok (["", "void serialize(BinarySerializer serializer)\x7b"]
        ++ variantTagLines variantIndex ++ stmts ++ ["\x7d"]
        ++ if variantIndex.isNone then
             (config.encodings.map outputClassSerializeForEncoding).flatten
           else [])
  else .ok []

/-- The deserialize (struct) or load (variant) operation (dart.rs lines
755-797): empty unless serialization is configured; reads every field in
declared order, then reconstructs through the constructor; for a plain
container the per-encoding decode-from-bytes operations follow. -/
def deserializeSectionLines (config : CodeGeneratorConfig) (variantIndex : Option Nat)
    (name : String) (fields : List (Named Format)) : Except String (List String) :=
  if config.serialization then
    match exMap (fun f =>
        match quoteDeserialize f.value with
        | .error e => .error e
        | .ok d => .ok ("var " ++ f.name ++ " = " ++ d ++ ";")) fields with
    | .error e => .error e
    | .ok stmts =>
      .ok (["",
            if variantIndex.isNone then
              "static " ++ name ++ " deserialize(BinaryDeserializer deserializer)\x7b"
            else
              "static " ++ name ++ " load(BinaryDeserializer deserializer)\x7b"]
        ++ stmts
        ++ ["return new " ++ name ++ "("
              ++ String.intercalate "," (fields.map (fun f => f.name)) ++ ");",
            "\x7d"]
        ++ if variantIndex.isNone then
             (config.encodings.map (outputClassDeserializeForEncoding name)).flatten
           else [])
  else .ok []

/-- The per-field comparison of the generated equality (dart.rs lines
813-821): sequence and fixed-array fields compare element-wise. -/
def eqStmt (f : Named Format) : String :=
  match f.value with
  | .Seq _ => " isListsEqual(this." ++ f.name ++ " , other." ++ f.name ++ ") "
  | .TupleArray _ _ => " isListsEqual(this." ++ f.name ++ " , other." ++ f.name ++ ") "
  | _ => " this." ++ f.name ++ " == other." ++ f.name ++ " "

/-- The conjunction lines of the generated equality condition (dart.rs lines
811-828): every comparison but the last ends in an and-operator. -/
def eqCondLines (stmts : List String) : List String :=
  match stmts with
  | [] => []
  | [s] => [" " ++ s ++ " )\x7b"]
  | s :: rest => (" " ++ s ++ " &&") :: eqCondLines rest

/-- The equality operation lines (dart.rs lines 799-836). -/
def equalitySectionLines (name : String) (fields : List (Named Format)) : List String :=
  ["", "@override", "bool operator ==(covariant " ++ name ++ " other) \x7b",
   "if (other == null) return false;"]
  ++ (if fields.length > 0 then
        match eqCondLines (fields.map eqStmt) with
        | [] => []
        | c :: rest =>
          "" :: ("if (" ++ c) :: rest ++ ["return true;\x7d", "else return false;"]
      else ["return true;"])
  ++ ["\x7d"]

/-- The hashCode operation lines (dart.rs lines 837-851). -/
def hashSectionLines (fields : List (Named Format)) : List String :=
  ["", "@override", "int get hashCode \x7b", "int value = 7;"]
  ++ fields.map (fun f =>
       "value = 31 * value + (this." ++ f.name ++ " != null ? this." ++ f.name
         ++ ".hashCode : 0);")
  ++ ["return value;", "\x7d"]

/-- Field-initializer lines of fromJson/loadJson (dart.rs lines 864-870):
every initializer but the last ends in a comma, the last in a semicolon. -/
def fromJsonBodyLines : List String → List String
  | [] => []
  | [s] => [s ++ " ;"]
  | s :: rest => (s ++ " ,") :: fromJsonBodyLines rest

/-- The name of the first field, used by the newtype (redefine) cases
(dart.rs lines 862 and 894). -/
def headFieldName (fields : List (Named Format)) : String :=
  match fields with
  | [] => ""
  | f :: _ => f.name

/-- The fromJson (struct) or loadJson (variant) constructor lines (dart.rs
lines 853-877): a newtype (redefine) reads the bare JSON value, otherwise one
initializer per field. -/
def fromJsonLines (variantIndex : Option Nat) (name : String)
    (fields : List (Named Format)) (redefine : Bool) : Except String (List String) :=
  if fields.length > 0 then
    match
      (if redefine then Except.ok [headFieldName fields ++ " = json ;"]
       else
         match exMap fromJson fields with
         | Except.error e => Except.error e
         | Except.ok fjs => Except.ok (fromJsonBodyLines fjs)) with
    | .error e => .error e
    | .ok body =>
      .ok (["",
            if variantIndex.isNone then name ++ ".fromJson(dynamic json) :"
            else name ++ ".loadJson(dynamic json) :"]
        ++ body)
  else if variantIndex.isNone then
    .ok ["", name ++ ".fromJson(dynamic json);"]
  else
    .ok ["", name ++ ".loadJson(dynamic json);"]

/-- The toJson lines (dart.rs lines 879-895): one key per field; a variant
additionally emits the numeric "type" and the original variant name as
"type_name"; a newtype (redefine) flattens to the bare first field. -/
def toJsonLines (variantIndex : Option Nat) (actualName : String)
    (fields : List (Named Format)) (redefine : Bool) : List String :=
  if !redefine then
    ["", "dynamic toJson() => \x7b"]
    ++ fields.map (fun f => toJson f ++ ",")
    ++ (match variantIndex with
        | some index =>
          ["\"type\" : " ++ toString index ++ ",",
           "\"type_name\" : \"" ++ actualName ++ "\""]
        | none => [])
    ++ ["\x7d;"]
  else if fields.length > 0 then
    ["", "dynamic toJson() => " ++ headFieldName fields ++ ";"]
  else []

/-- The JSON section of a struct or variant class (dart.rs lines 853-895):
fromJson/loadJson initializers, then toJson. -/
def jsonSectionLines (variantIndex : Option Nat) (name actualName : String)
    (fields : List (Named Format)) (redefine : Bool) : Except String (List String) :=
  match fromJsonLines variantIndex name fields redefine with
  | .error e => .error e
  | .ok fj => .ok (fj ++ toJsonLines variantIndex actualName fields redefine)

/-- DartEmitter::output_struct_or_variant_container (dart.rs lines 680-901):
the full class emitted for a struct-like container or an enum variant. -/
def outputStructOrVariantContainer (config : CodeGeneratorConfig)
    (variantBase : Option String) (variantIndex : Option Nat) (name : String)
    (fields : List (Named Format)) (redefine : Bool) (actualName : String) :
    Except String (List String) :=
  match fieldDeclLines fields with
  | .error e => .error e
  | .ok decls =>
    match constructorLines name fields with
    | .error e => .error e
    | .ok ctor =>
      match serializeSectionLines config variantIndex fields with
      | .error e => .error e
      | .ok ser =>
        match deserializeSectionLines config variantIndex name fields with
        | .error e => .error e
        | .ok deser =>
          match jsonSectionLines variantIndex name actualName fields redefine with
          | .error e => .error e
          | .ok json =>
            .ok (["",
                  match variantBase with
                  | some base => "class " ++ name ++ " extends " ++ base ++ " \x7b"
                  | none => "class " ++ name ++ " \x7b"]
              ++ decls ++ ctor ++ ser ++ deser
              ++ equalitySectionLines name fields
              ++ hashSectionLines fields
              ++ json
              ++ ["\x7d"])

/-- The base abstract class of an enum (dart.rs lines 944-1019): serialize
contract, the static binary deserialize dispatcher over the variant tag, the
per-encoding convenience operations, and the JSON dispatcher over the "type"
key.  This part of the emission is total. -/
def enumBaseClassLines (config : CodeGeneratorConfig) (name : String)
    (variants : List (Nat × Named VariantFormat)) : List String :=
  ["", "abstract class " ++ name ++ " \x7b", name ++ "();"]
  ++ (if config.serialization then
        ["", "void serialize(BinarySerializer serializer);"]
        ++ ["", "static " ++ name ++ " deserialize(BinaryDeserializer deserializer) \x7b"]
        ++ ["int index = deserializer.deserialize_variant_index();",
            "switch (index) \x7b"]
        ++ variants.map (fun v =>
             "case " ++ toString v.1 ++ ": return " ++ name ++ v.2.name
               ++ "Item.load(deserializer);")
        ++ ["default: throw new Exception(\"Unknown variant index for " ++ name
              ++ ": \" + index.toString());"]
        ++ ["\x7d", "\x7d"]
        ++ (config.encodings.map (fun e =>
              outputClassSerializeForEncoding e
                ++ outputClassDeserializeForEncoding name e)).flatten
        ++ ["", "static " ++ name ++ " fromJson(dynamic json)\x7b",
            "  final type = json[\x27type\x27] as int;",
            "  switch (type) \x7b"]
        ++ variants.map (fun v =>
             "case " ++ toString v.1 ++ ": return " ++ name ++ v.2.name
               ++ "Item.loadJson(json);")
        ++ ["default: throw new Exception(\"Unknown type for " ++ name
              ++ ": \" + type.toString());"]
        ++ ["\x7d", "\x7d"]
        ++ ["", "dynamic toJson();"]
      else [])
  ++ ["\x7d", ""]

/-- DartEmitter::output_variant (dart.rs lines 1043-1077): derive the field
list from the variant shape and emit it as a class extending the base; the
unresolved placeholder is a panic in the source. -/
def outputVariant (config : CodeGeneratorConfig) (base : String) (index : Nat)
    (name : String) (variant : VariantFormat) (actualName : String) :
    Except String (List String) :=
  match variant with
  | .Unit =>
    outputStructOrVariantContainer config (some base) (some index) name [] false actualName
  | .NewType format =>
    outputStructOrVariantContainer config (some base) (some index) name
      [⟨"value", format⟩] false actualName
  | .Tuple formats =>
    outputStructOrVariantContainer config (some base) (some index) name
      (formats.enum.map (fun p => ⟨"field" ++ toString p.1, p.2⟩)) false actualName
  | .Struct fields =>
    outputStructOrVariantContainer config (some base) (some index) name fields false actualName
  | .Variable => .error "incorrect value"

/-- DartEmitter::output_variants (dart.rs lines 1026-1041): one class per
declared variant, named base + variant name + "Item". -/
def outputVariants (config : CodeGeneratorConfig) (base : String)
    (variants : List (Nat × Named VariantFormat)) : Except String (List String) :=
  exFlatMap (fun v =>
    outputVariant config base v.1 (base ++ v.2.name ++ "Item") v.2.value v.2.name) variants

/-- DartEmitter::output_enum_container (dart.rs lines 939-1024): the base
class followed by one class per variant. -/
def outputEnumContainer (config : CodeGeneratorConfig) (name : String)
    (variants : List (Nat × Named VariantFormat)) : Except String (List String) :=
  match outputVariants config name variants with
  | .error e => .error e
  | .ok vl => .ok (enumBaseClassLines config name variants ++ vl)

/-- DartEmitter::output_container (dart.rs lines 651-678): derive the field
list from the container shape (a newtype sets the redefine flag) and emit the
class; enums go through the enum emitter. -/
def outputContainer (config : CodeGeneratorConfig) (name : String)
    (format : ContainerFormat) : Except String (List String) :=
  match format with
  | .UnitStruct =>
    outputStructOrVariantContainer config none none name [] false name
  | .NewTypeStruct format =>
    outputStructOrVariantContainer config none none name [⟨"value", format⟩] true name
  | .TupleStruct formats =>
    outputStructOrVariantContainer config none none name
      (formats.enum.map (fun p => ⟨"field" ++ toString p.1, p.2⟩)) false name
  | .Struct fields =>
    outputStructOrVariantContainer config none none name fields false name
  | .Enum variants => outputEnumContainer config name variants

/-- Control flow of the emitted decode-from-bytes template (dart.rs lines
924-932): once `deserialize` has produced `v` leaving the buffer offset at
`offset` on an input of `len` bytes, the guard throws when unread bytes
remain and returns the value otherwise. -/
def decodeFromBytesGuard {α : Type} (v : α) (offset len : Nat) : Except String α :=
  if offset < len then .error "Some input bytes were not read" else .ok v

/-- Control flow of the key-ordering checks in the emitted map-deserialize
template (dart.rs lines 590-600): with `cmp prev cur` the runtime check that
the current key slice compares strictly greater than the previous one, the
loop checks every entry after the first against its predecessor. -/
def keySliceLoopOk {α : Type} (cmp : α → α → Bool) : List α → Bool
  | [] => true
  | [_] => true
  | a :: b :: rest => cmp a b && keySliceLoopOk cmp (b :: rest)

/-- Control flow of an emitted switch over distinct case labels (dart.rs
lines 960-976 and 987-1012): the first case whose label equals the scrutinee
is taken; `none` means the default branch (a throw) is reached. -/
def switchLookup {α : Type} : List (Nat × α) → Nat → Option α
  | [], _ => none
  | (i, a) :: rest, tag => if tag = i then some a else switchLookup rest tag

/-! ### Lemmas about the lexicographic key order -/

theorem charEq_of_toNat (a b : Char) (h : a.toNat = b.toNat) : a = b :=
  Char.ext (UInt32.ext h)

theorem listLtB_irrefl (l : List Char) : listLtB l l = false := by
  induction l with
  | nil => rfl
  | cons a as ih => simp [listLtB, charLtB, ih]

theorem listLtB_cons_iff (a b : Char) (as bs : List Char) :
    listLtB (a :: as) (b :: bs) = true
      ↔ a.toNat < b.toNat ∨ (a = b ∧ listLtB as bs = true) := by
  constructor
  · intro h
    simp only [listLtB, charLtB] at h
    by_cases h1 : a.toNat < b.toNat
    · exact Or.inl h1
    · by_cases h2 : b.toNat < a.toNat
      · simp [h1, h2] at h
      · refine Or.inr ⟨charEq_of_toNat a b (by omega), ?_⟩
        simpa [h1, h2] using h
  · intro h
    rcases h with h | ⟨rfl, h⟩
    · simp [listLtB, charLtB, h]
    · simp [listLtB, charLtB, h]

theorem listLtB_trans : ∀ (a b c : List Char),
    listLtB a b = true → listLtB b c = true → listLtB a c = true := by
  intro a
  induction a with
  | nil =>
    intro b c hab hbc
    cases b with
    | nil => cases hab
    | cons y ys =>
      cases c with
      | nil => cases hbc
      | cons z zs => rfl
  | cons x xs ih =>
    intro b c hab hbc
    cases b with
    | nil => cases hab
    | cons y ys =>
      cases c with
      | nil => cases hbc
      | cons z zs =>
        rw [listLtB_cons_iff] at hab hbc ⊢
        rcases hab with h1 | ⟨rfl, h1⟩
        · rcases hbc with h2 | ⟨rfl, h2⟩
          · exact Or.inl (Nat.lt_trans h1 h2)
          · exact Or.inl h1
        · rcases hbc with h2 | ⟨rfl, h2⟩
          · exact Or.inl h2
          · exact Or.inr ⟨rfl, ih ys zs h1 h2⟩

theorem listLtB_eq_of_not_lt : ∀ (a b : List Char),
    listLtB a b = false → listLtB b a = false → a = b := by
  intro a
  induction a with
  | nil =>
    intro b hab _
    cases b with
    | nil => rfl
    | cons y ys => cases hab
  | cons x xs ih =>
    intro b hab hba
    cases b with
    | nil => cases hba
    | cons y ys =>
      have hab' : ¬ (x.toNat < y.toNat ∨ (x = y ∧ listLtB xs ys = true)) := by
        rw [← listLtB_cons_iff]; simp [hab]
      have hba' : ¬ (y.toNat < x.toNat ∨ (y = x ∧ listLtB ys xs = true)) := by
        rw [← listLtB_cons_iff]; simp [hba]
      push_neg at hab' hba'
      have hxy : x = y := charEq_of_toNat x y (by omega)
      subst hxy
      have h1 : listLtB xs ys = false := by
        have := hab'.2 rfl
        simpa using this
      have h2 : listLtB ys xs = false := by
        have := hba'.2 rfl
        simpa using this
      rw [ih ys h1 h2]

theorem strLtB_irrefl (a : String) : strLtB a a = false :=
  listLtB_irrefl a.data

theorem strLtB_trans {a b c : String} (h1 : strLtB a b = true)
    (h2 : strLtB b c = true) : strLtB a c = true :=
  listLtB_trans a.data b.data c.data h1 h2

theorem strLtB_asymm {a b : String} (h : strLtB a b = true) : strLtB b a = false := by
  by_contra hc
  have hba : strLtB b a = true := by
    cases hval : strLtB b a
    · exact absurd hval hc
    · rfl
  have := strLtB_trans h hba
  rw [strLtB_irrefl] at this
  cases this

theorem strLtB_eq_of_not_lt {a b : String} (h1 : strLtB a b = false)
    (h2 : strLtB b a = false) : a = b := by
  cases a with
  | mk da =>
    cases b with
    | mk db =>
      have : da = db := listLtB_eq_of_not_lt da db h1 h2
      rw [this]

/-! ### Lemmas about the helper table -/

/-- Strict ascending key order of a helper table, the invariant of the
modelled BTreeMap: keys appear in strictly increasing signature order, hence
at most one entry per signature. -/
def TableSorted (t : List (String × Format)) : Prop :=
  List.Pairwise (fun a b => strLtB a.1 b.1 = true) t

theorem tableInsert_mem {x : String × Format} {k : String} {v : Format} :
    ∀ {t : List (String × Format)}, x ∈ tableInsert k v t → x = (k, v) ∨ x ∈ t := by
  intro t
  induction t with
  | nil => intro h; simpa [tableInsert] using h
  | cons e rest ih =>
    rcases e with ⟨k0, v0⟩
    intro h
    rw [tableInsert] at h
    by_cases h1 : strLtB k k0 = true
    · rw [if_pos h1] at h
      rcases List.mem_cons.mp h with h | h
      · exact Or.inl h
      · exact Or.inr h
    · rw [if_neg h1] at h
      by_cases h2 : strLtB k0 k = true
      · rw [if_pos h2] at h
        rcases List.mem_cons.mp h with h | h
        · exact Or.inr (List.mem_cons.mpr (Or.inl h))
        · rcases ih h with h | h
          · exact Or.inl h
          · exact Or.inr (List.mem_cons.mpr (Or.inr h))
      · rw [if_neg h2] at h
        rcases List.mem_cons.mp h with h | h
        · exact Or.inl h
        · exact Or.inr (List.mem_cons.mpr (Or.inr h))

theorem tableInsert_keys (k : String) (v : Format) :
    ∀ (t : List (String × Format)) (k' : String),
      k' ∈ (tableInsert k v t).map Prod.fst ↔ (k' = k ∨ k' ∈ t.map Prod.fst) := by
  intro t
  induction t with
  | nil => intro k'; simp [tableInsert]
  | cons e rest ih =>
    rcases e with ⟨k0, v0⟩
    intro k'
    rw [tableInsert]
    by_cases h1 : strLtB k k0 = true
    · rw [if_pos h1]
      simp only [List.map_cons, List.mem_cons]
    · rw [if_neg h1]
      by_cases h2 : strLtB k0 k = true
      · rw [if_pos h2]
        simp only [List.map_cons, List.mem_cons, ih]
        tauto
      · rw [if_neg h2]
        have hke : k = k0 :=
          strLtB_eq_of_not_lt (by simpa using h1) (by simpa using h2)
        subst hke
        simp only [List.map_cons, List.mem_cons]
        tauto

theorem tableInsert_sorted {k : String} {v : Format} :
    ∀ {t : List (String × Format)}, TableSorted t → TableSorted (tableInsert k v t) := by
  intro t
  induction t with
  | nil => intro _; simp [tableInsert, TableSorted]
  | cons e rest ih =>
    rcases e with ⟨k0, v0⟩
    intro h
    rcases List.pairwise_cons.mp h with ⟨he, hrest⟩
    rw [tableInsert]
    by_cases h1 : strLtB k k0 = true
    · rw [if_pos h1]
      refine List.pairwise_cons.mpr ⟨?_, h⟩
      intro b hb
      rcases List.mem_cons.mp hb with hb | hb
      · rw [hb]; exact h1
      · exact strLtB_trans h1 (he b hb)
    · rw [if_neg h1]
      by_cases h2 : strLtB k0 k = true
      · rw [if_pos h2]
        refine List.pairwise_cons.mpr ⟨?_, ih hrest⟩
        intro b hb
        rcases tableInsert_mem hb with hb | hb
        · rw [hb]; exact h2
        · exact he b hb
      · rw [if_neg h2]
        have hke : k = k0 :=
          strLtB_eq_of_not_lt (by simpa using h1) (by simpa using h2)
        refine List.pairwise_cons.mpr ⟨?_, hrest⟩
        intro b hb
        rw [hke]
        exact he b hb

theorem tableInsert_idem (k : String) (v : Format) :
    ∀ (t : List (String × Format)),
      tableInsert k v (tableInsert k v t) = tableInsert k v t := by
  intro t
  induction t with
  | nil =>
    show tableInsert k v [(k, v)] = [(k, v)]
    rw [tableInsert]
    rw [if_neg (by simp [strLtB_irrefl]), if_neg (by simp [strLtB_irrefl])]
  | cons e rest ih =>
    rcases e with ⟨k0, v0⟩
    rw [tableInsert]
    by_cases h1 : strLtB k k0 = true
    · rw [if_pos h1]
      rw [tableInsert]
      rw [if_neg (by simp [strLtB_irrefl]), if_neg (by simp [strLtB_irrefl])]
    · rw [if_neg h1]
      by_cases h2 : strLtB k0 k = true
      · rw [if_pos h2]
        rw [tableInsert]
        rw [if_neg h1, if_pos h2, ih]
      · rw [if_neg h2]
        rw [tableInsert]
        rw [if_neg (by simp [strLtB_irrefl]), if_neg (by simp [strLtB_irrefl])]

theorem insertAll_sorted :
    ∀ (fs : List Format) (t t' : List (String × Format)),
      insertAll fs t = .ok t' → TableSorted t → TableSorted t' := by
  intro fs
  induction fs with
  | nil => intro t t' h hs; cases h; exact hs
  | cons f fs ih =>
    intro t t' h hs
    rw [insertAll] at h
    by_cases hnh : needsHelper f = true
    · rw [if_pos hnh] at h
      cases hm : mangle f with
      | error e => rw [hm] at h; cases h
      | ok k =>
        rw [hm] at h
        exact ih _ _ h (tableInsert_sorted hs)
    · rw [if_neg hnh] at h
      exact ih _ _ h hs

theorem insertAll_keys_mono :
    ∀ (fs : List Format) (t t' : List (String × Format)) (k : String),
      insertAll fs t = .ok t' → k ∈ t.map Prod.fst → k ∈ t'.map Prod.fst := by
  intro fs
  induction fs with
  | nil => intro t t' k h hk; cases h; exact hk
  | cons f fs ih =>
    intro t t' k h hk
    rw [insertAll] at h
    by_cases hnh : needsHelper f = true
    · rw [if_pos hnh] at h
      cases hm : mangle f with
      | error e => rw [hm] at h; cases h
      | ok kf =>
        rw [hm] at h
        exact ih _ _ k h ((tableInsert_keys kf f t k).mpr (Or.inr hk))
    · rw [if_neg hnh] at h
      exact ih _ _ k h hk

theorem insertAll_complete :
    ∀ (fs : List Format) (t t' : List (String × Format)) (f : Format) (kf : String),
      insertAll fs t = .ok t' → f ∈ fs → needsHelper f = true →
      mangle f = .ok kf → kf ∈ t'.map Prod.fst := by
  intro fs
  induction fs with
  | nil => intro t t' f kf _ hmem; cases hmem
  | cons g gs ih =>
    intro t t' f kf h hmem hnh hm
    rw [insertAll] at h
    rcases List.mem_cons.mp hmem with rfl | hmem
    · rw [if_pos hnh] at h
      rw [hm] at h
      exact insertAll_keys_mono gs _ _ kf h
        ((tableInsert_keys kf f t kf).mpr (Or.inl rfl))
    · by_cases hg : needsHelper g = true
      · rw [if_pos hg] at h
        cases hmg : mangle g with
        | error e => rw [hmg] at h; cases h
        | ok kg =>
          rw [hmg] at h
          exact ih _ _ f kf h hmem hnh hm
      · rw [if_neg hg] at h
        exact ih _ _ f kf h hmem hnh hm

/-! ### Lemmas about fallible mapping -/

theorem exMap_ok_length {α β : Type} (f : α → Except String β) :
    ∀ (l : List α) (l' : List β), exMap f l = .ok l' → l'.length = l.length := by
  intro l
  induction l with
  | nil => intro l' h; cases h; rfl
  | cons a as ih =>
    intro l' h
    rw [exMap] at h
    cases hfa : f a with
    | error e => rw [hfa] at h; cases h
    | ok b =>
      rw [hfa] at h
      cases hms : exMap f as with
      | error e => rw [hms] at h; cases h
      | ok bs =>
        rw [hms] at h
        cases h
        simp [ih bs hms]

theorem exMap_ok_get {α β : Type} (f : α → Except String β) :
    ∀ (l : List α) (l' : List β), exMap f l = .ok l' →
      ∀ (i : Nat) (hi : i < l.length) (hi' : i < l'.length),
        f (l.get ⟨i, hi⟩) = .ok (l'.get ⟨i, hi'⟩) := by
  intro l
  induction l with
  | nil => intro l' _ i hi; cases hi
  | cons a as ih =>
    intro l' h i hi hi'
    rw [exMap] at h
    cases hfa : f a with
    | error e => rw [hfa] at h; cases h
    | ok b =>
      rw [hfa] at h
      cases hms : exMap f as with
      | error e => rw [hms] at h; cases h
      | ok bs =>
        rw [hms] at h
        cases h
        cases i with
        | zero => exact hfa
        | succ j => exact ih bs hms j (Nat.lt_of_succ_lt_succ hi) (Nat.lt_of_succ_lt_succ hi')

/-! ### Lemmas about the modelled control flow of emitted templates -/

theorem keySliceLoopOk_iff_chain {α : Type} (cmp : α → α → Bool) :
    ∀ (l : List α), keySliceLoopOk cmp l = true
      ↔ List.Chain' (fun a b => cmp a b = true) l := by
  intro l
  induction l with
  | nil => simp [keySliceLoopOk]
  | cons a tail ih =>
    cases tail with
    | nil => simp [keySliceLoopOk]
    | cons b rest =>
      rw [keySliceLoopOk, List.chain'_cons, Bool.and_eq_true, ih]

theorem switchLookup_eq_none_iff {α : Type} :
    ∀ (cases : List (Nat × α)) (tag : Nat),
      switchLookup cases tag = none ↔ tag ∉ cases.map Prod.fst := by
  intro cs
  induction cs with
  | nil => intro tag; simp [switchLookup]
  | cons c rest ih =>
    intro tag
    cases c with
    | mk i a =>
      rw [switchLookup]
      by_cases h : tag = i
      · simp [h]
      · simp [h, ih tag]

/-! ### Concrete fixtures used by the claims -/

/-- A registry in which two distinct containers both contain an
optional uint32 field. -/
def dedupRegistry : Registry :=
  [("A", .Struct [⟨"a", .Option .U32⟩]), ("B", .Struct [⟨"b", .Option .U32⟩])]

/-- A configuration with serialization enabled and the bcs encoding. -/
def cfgBcs : CodeGeneratorConfig :=
  ⟨"m", true, ["bcs"], []⟩

/-- An enum with variants declared at tags 0, 1 and 2. -/
def enumVariants012 : List (Nat × Named VariantFormat) :=
  [(0, ⟨"A", .Unit⟩), (1, ⟨"B", .Unit⟩), (2, ⟨"C", .Unit⟩)]

/-! ### Claims -/

/-- C1: the helper-generation pass visits every Format reachable from every
container and inserts one table entry per distinct composite shape, keyed by
its canonical signature: the table is strictly sorted by signature (hence at
most one entry per signature), insertion is idempotent, every visited shape
needing a helper is present under its signature, and emission produces
exactly one serialize/deserialize helper pair per table entry, iterated in
ascending signature order; on a registry where two distinct containers both
contain an optional uint32 field, exactly one helper pair is emitted for
that shape. -/
theorem claim1_helper_dedup :
    (∀ (registry : Registry) (t : List (String × Format)),
        traitHelperTable registry = .ok t → TableSorted t)
    ∧ (∀ (k : String) (v : Format) (t : List (String × Format)),
        tableInsert k v (tableInsert k v t) = tableInsert k v t)
    ∧ (∀ (registry : Registry) (fs : List Format) (f : Format) (kf : String)
          (t : List (String × Format)),
        registryFormats registry = .ok fs → traitHelperTable registry = .ok t →
        f ∈ fs → needsHelper f = true → mangle f = .ok kf →
        kf ∈ t.map Prod.fst)
    ∧ (∀ (registry : Registry) (t : List (String × Format)) (bodies : List (List String)),
        traitHelperTable registry = .ok t → exMap helperPairLines t = .ok bodies →
        outputTraitHelpers registry
            = .ok ("class TraitHelpers \x7b" :: bodies.flatten ++ ["\x7d", ""])
          ∧ bodies.length = t.length
          ∧ (∀ (i : Nat) (hi : i < t.length) (hi' : i < bodies.length),
              ∃ s d, outputSerializationHelper (t.get ⟨i, hi⟩).1 (t.get ⟨i, hi⟩).2 = .ok s
                ∧ outputDeserializationHelper (t.get ⟨i, hi⟩).1 (t.get ⟨i, hi⟩).2 = .ok d
                ∧ bodies.get ⟨i, hi'⟩ = s ++ d))
    ∧ traitHelperTable dedupRegistry = .ok [("option_u32", .Option .U32)]
    ∧ (∃ lines, outputTraitHelpers dedupRegistry = .ok lines
        ∧ lines.count ("static void serialize_option_u32(Optional<int> value, BinarySerializer serializer) \x7b") = 1
        ∧ lines.count ("static Optional<int> deserialize_option_u32(BinaryDeserializer deserializer) \x7b") = 1) := by
  refine ⟨?_, ?_, ?_, ?_, rfl, ?_⟩
  · intro registry t h
    rw [traitHelperTable] at h
    cases hrf : registryFormats registry with
    | error e => rw [hrf] at h; cases h
    | ok fs =>
      rw [hrf] at h
      exact insertAll_sorted fs [] t h List.Pairwise.nil
  · intro k v t
    exact tableInsert_idem k v t
  · intro registry fs f kf t hrf ht hmem hnh hm
    rw [traitHelperTable, hrf] at ht
    exact insertAll_complete fs [] t f kf ht hmem hnh hm
  · intro registry t bodies ht hb
    refine ⟨?_, exMap_ok_length helperPairLines t bodies hb, ?_⟩
    · simp only [outputTraitHelpers, ht, exFlatMap, hb]
    · intro i hi hi'
      have h := exMap_ok_get helperPairLines t bodies hb i hi hi'
      rw [helperPairLines] at h
      cases hs : outputSerializationHelper (t.get ⟨i, hi⟩).1 (t.get ⟨i, hi⟩).2 with
      | error e => rw [hs] at h; cases h
      | ok s =>
        rw [hs] at h
        cases hd : outputDeserializationHelper (t.get ⟨i, hi⟩).1 (t.get ⟨i, hi⟩).2 with
        | error e => rw [hd] at h; cases h
        | ok d =>
          rw [hd] at h
          exact ⟨s, d, rfl, rfl, (Except.ok.inj h).symm⟩
  · refine ⟨_, rfl, by decide, by decide⟩

/-- Witness for C1: the table computed for the concrete registry is sorted,
and the signature of the shared optional uint32 shape is one of its keys. -/
theorem claim1_helper_dedup_witness :
    TableSorted [("option_u32", Format.Option Format.U32)]
    ∧ "option_u32" ∈ ([("option_u32", Format.Option Format.U32)]).map Prod.fst :=
  ⟨claim1_helper_dedup.1 dedupRegistry [("option_u32", Format.Option Format.U32)] rfl,
   claim1_helper_dedup.2.2.1 dedupRegistry
     [Format.Option Format.U32, Format.U32, Format.Option Format.U32, Format.U32]
     (Format.Option Format.U32) "option_u32"
     [("option_u32", Format.Option Format.U32)]
     rfl rfl (List.Mem.head _) rfl rfl⟩

/-- C2: for every map shape the emitted serialize helper writes the entry
count, then each key followed by its value while recording the offset of each
entry, finally rearranging the written entries into ascending serialized key
order; the emitted deserialize helper records the buffer offset immediately
before and after reading each key and, for every entry after the first,
checks the previous key slice against the current one through the runtime
check that raises a decode failure; the emitted loop's guard checks exactly
all adjacent pairs. -/
theorem claim2_map_canonical (name : String) (key value : Format)
    (tk tv sk sv dk dv : String) (cmp : Nat → Nat → Bool) (slices : List Nat)
    (hk : quoteType key = .ok tk) (hv : quoteType value = .ok tv)
    (hsk : quoteSerializeValue "entry.getKey()" key = .ok sk)
    (hsv : quoteSerializeValue "entry.getValue()" value = .ok sv)
    (hdk : quoteDeserialize key = .ok dk)
    (hdv : quoteDeserialize value = .ok dv) :
    outputSerializationHelper name (.Map key value)
      = .ok (("static void serialize_" ++ name ++ "("
                ++ ("Map<" ++ tk ++ ", " ++ tv ++ ">")
                ++ " value, BinarySerializer serializer) \x7b")
             :: ["serializer.serialize_len(value.length);",
                 "List<int> offsets = new List<int>();",
                 "int count = 0;",
                 "for (Map.Entry<" ++ tk ++ ", " ++ tv ++ "> entry : value.entrySet()) \x7b",
                 "    offsets[count++] = serializer.get_buffer_offset();",
                 "    " ++ sk,
                 "    " ++ sv,
                 "\x7d",
                 "serializer.sort_map_entries(offsets);"]
             ++ ["\x7d", ""])
    ∧ outputDeserializationHelper name (.Map key value)
      = .ok (("static " ++ ("Map<" ++ tk ++ ", " ++ tv ++ ">") ++ " deserialize_" ++ name
                ++ "(BinaryDeserializer deserializer) \x7b")
             :: ["int length = deserializer.deserialize_len();",
                 "Map<" ++ tk ++ ", " ++ tv ++ "> obj = new HashMap<" ++ tk ++ ", " ++ tv ++ ">();",
                 "int previous_key_start = 0;",
                 "int previous_key_end = 0;",
                 "for (int i = 0; i < length; i++) \x7b",
                 "    int key_start = deserializer.get_buffer_offset();",
                 "    " ++ tk ++ " key = " ++ dk ++ ";",
                 "    int key_end = deserializer.get_buffer_offset();",
                 "    if (i > 0) \x7b",
                 "        deserializer.check_that_key_slices_are_increasing(",
                 "            new Slice(previous_key_start, previous_key_end),",
                 "            new Slice(key_start, key_end));",
                 "    \x7d",
                 "    previous_key_start = key_start;",
                 "    previous_key_end = key_end;",
                 "    " ++ tv ++ " value = " ++ dv ++ ";",
                 "    obj.put(key, value);",
                 "\x7d",
                 "return obj;"]
             ++ ["\x7d", ""])
    ∧ (keySliceLoopOk cmp slices = true
        ↔ List.Chain' (fun a b => cmp a b = true) slices) := by
  refine ⟨?_, ?_, keySliceLoopOk_iff_chain cmp slices⟩
  · simp only [outputSerializationHelper, outputSerializationHelper.body,
      quoteType, hk, hv, hsk, hsv]
  · simp only [outputDeserializationHelper, outputDeserializationHelper.body,
      quoteType, hk, hv, hdk, hdv]

/-- Witness for C2: the check loop modelled from the emitted map decoder,
instantiated at concrete slices, checks exactly the adjacent pairs. -/
theorem claim2_map_canonical_witness :
    keySliceLoopOk (fun a b => decide (a < b)) [0, 2, 5] = true
      ↔ List.Chain' (fun a b => decide (a < b) = true) [0, 2, 5] :=
  (claim2_map_canonical "map_str_to_u64" Format.Str Format.U64 "String" "int"
    "serializer.serialize_str(entry.getKey());"
    "serializer.serialize_u64(entry.getValue());"
    "deserializer.deserialize_str()" "deserializer.deserialize_u64()"
    (fun a b => decide (a < b)) [0, 2, 5] rfl rfl rfl rfl rfl rfl).2.2

/-- C3: with serialization configured, the emitted serialize operation writes
the variant tag (exactly when emitting a variant) and then the fields in
declared order, and the emitted deserialize/load operation reads fields in
the identical order before reconstructing through the constructor: the i-th
read statement reads the i-th declared field's format. -/
theorem claim3_field_order (config : CodeGeneratorConfig) (variantIndex : Option Nat)
    (name : String) (fields : List (Named Format)) (ss ds : List String)
    (hcfg : config.serialization = true)
    (hs : exMap (fun f => quoteSerializeValue f.name f.value) fields = .ok ss)
    (hd : exMap (fun f =>
        match quoteDeserialize f.value with
        | .error e => .error e
        | .ok d => .ok ("var " ++ f.name ++ " = " ++ d ++ ";")) fields = .ok ds) :
    serializeSectionLines config variantIndex fields
      = .ok (["", "void serialize(BinarySerializer serializer)\x7b"]
          ++ variantTagLines variantIndex ++ ss ++ ["\x7d"]
          ++ if variantIndex.isNone then
               (config.encodings.map outputClassSerializeForEncoding).flatten
             else [])
    ∧ deserializeSectionLines config variantIndex name fields
      = .ok (["",
              if variantIndex.isNone then
                "static " ++ name ++ " deserialize(BinaryDeserializer deserializer)\x7b"
              else
                "static " ++ name ++ " load(BinaryDeserializer deserializer)\x7b"]
          ++ ds
          ++ ["return new " ++ name ++ "("
                ++ String.intercalate "," (fields.map (fun f => f.name)) ++ ");",
              "\x7d"]
          ++ if variantIndex.isNone then
               (config.encodings.map (outputClassDeserializeForEncoding name)).flatten
             else [])
    ∧ ss.length = fields.length
    ∧ ds.length = fields.length
    ∧ (∀ (i : Nat) (hi : i < fields.length) (hi1 : i < ss.length) (hi2 : i < ds.length),
        quoteSerializeValue (fields.get ⟨i, hi⟩).name (fields.get ⟨i, hi⟩).value
            = .ok (ss.get ⟨i, hi1⟩)
        ∧ ∃ d, quoteDeserialize (fields.get ⟨i, hi⟩).value = .ok d
            ∧ ds.get ⟨i, hi2⟩ = "var " ++ (fields.get ⟨i, hi⟩).name ++ " = " ++ d ++ ";") := by
  refine ⟨?_, ?_, exMap_ok_length _ fields ss hs, exMap_ok_length _ fields ds hd, ?_⟩
  · rw [serializeSectionLines, if_pos hcfg, hs]
  · rw [deserializeSectionLines, if_pos hcfg, hd]
  · intro i hi hi1 hi2
    refine ⟨exMap_ok_get _ fields ss hs i hi hi1, ?_⟩
    have h := exMap_ok_get _ fields ds hd i hi hi2
    cases hq : quoteDeserialize (fields.get ⟨i, hi⟩).value with
    | error e => rw [hq] at h; cases h
    | ok d =>
      rw [hq] at h
      exact ⟨d, rfl, (Except.ok.inj h).symm⟩

/-- Witness for C3: the serialize section of a concrete variant with fields
(a: uint8, b: string) writes the tag first and then the fields in order. -/
theorem claim3_field_order_witness :
    serializeSectionLines cfgBcs (some 1) [⟨"a", .U8⟩, ⟨"b", .Str⟩]
      = .ok (["", "void serialize(BinarySerializer serializer)\x7b"]
          ++ variantTagLines (some 1)
          ++ ["serializer.serialize_u8(a);", "serializer.serialize_str(b);"] ++ ["\x7d"]
          ++ if (some 1 : Option Nat).isNone then
               (cfgBcs.encodings.map outputClassSerializeForEncoding).flatten
             else []) :=
  (claim3_field_order cfgBcs (some 1) "FooAItem" [⟨"a", .U8⟩, ⟨"b", .Str⟩]
    ["serializer.serialize_u8(a);", "serializer.serialize_str(b);"]
    ["var a = deserializer.deserialize_u8();", "var b = deserializer.deserialize_str();"]
    rfl rfl rfl).1

/-- C4: with serialization configured, the emitted static deserialize
dispatcher of an enum first reads one variant-tag primitive, then switches
over exactly the declared tags, calling the matching variant's load routine,
with a default branch that throws an unknown-variant-index exception; the
switch reaches its default exactly for tags outside the declared set, and the
concrete tag 3 of an enum declaring tags 0, 1, 2 only hits the default
throw, no case line. -/
theorem claim4_enum_tag_dispatch (config : CodeGeneratorConfig) (name : String)
    (variants : List (Nat × Named VariantFormat)) (cs : List (Nat × String)) (tag : Nat)
    (hcfg : config.serialization = true) :
    enumBaseClassLines config name variants
      = ["", "abstract class " ++ name ++ " \x7b", name ++ "();"]
        ++ (["", "void serialize(BinarySerializer serializer);"]
            ++ ["", "static " ++ name ++ " deserialize(BinaryDeserializer deserializer) \x7b"]
            ++ ["int index = deserializer.deserialize_variant_index();",
                "switch (index) \x7b"]
            ++ variants.map (fun v =>
                 "case " ++ toString v.1 ++ ": return " ++ name ++ v.2.name
                   ++ "Item.load(deserializer);")
            ++ ["default: throw new Exception(\"Unknown variant index for " ++ name
                  ++ ": \" + index.toString());"]
            ++ ["\x7d", "\x7d"]
            ++ (config.encodings.map (fun e =>
                  outputClassSerializeForEncoding e
                    ++ outputClassDeserializeForEncoding name e)).flatten
            ++ ["", "static " ++ name ++ " fromJson(dynamic json)\x7b",
                "  final type = json[\x27type\x27] as int;",
                "  switch (type) \x7b"]
            ++ variants.map (fun v =>
                 "case " ++ toString v.1 ++ ": return " ++ name ++ v.2.name
                   ++ "Item.loadJson(json);")
            ++ ["default: throw new Exception(\"Unknown type for " ++ name
                  ++ ": \" + type.toString());"]
            ++ ["\x7d", "\x7d"]
            ++ ["", "dynamic toJson();"])
        ++ ["\x7d", ""]
    ∧ (switchLookup cs tag = none ↔ tag ∉ cs.map Prod.fst)
    ∧ "case 3: return EDItem.load(deserializer);"
        ∉ enumBaseClassLines cfgBcs "E" enumVariants012
    ∧ "default: throw new Exception(\"Unknown variant index for E: \" + index.toString());"
        ∈ enumBaseClassLines cfgBcs "E" enumVariants012 := by
  refine ⟨?_, switchLookup_eq_none_iff cs tag, by decide, by decide⟩
  rw [enumBaseClassLines, if_pos hcfg]

/-- Witness for C4: the concrete dispatcher of an enum declaring tags 0, 1, 2
has no case for tag 3. -/
theorem claim4_enum_tag_dispatch_witness :
    "case 3: return EDItem.load(deserializer);"
      ∉ enumBaseClassLines cfgBcs "E" enumVariants012 :=
  (claim4_enum_tag_dispatch cfgBcs "E" enumVariants012 [] 0 rfl).2.2.1

/-- C5: for every container and encoding, the emitted decode-from-bytes
convenience operation reads the value, then throws exactly when the
deserializer's buffer offset is below the input length, and returns the
decoded value when the input was consumed exactly. -/
theorem claim5_trailing_bytes {α : Type} (name encoding : String) (v : α)
    (offset len : Nat) :
    outputClassDeserializeForEncoding name encoding
      = ["",
         "static " ++ name ++ " " ++ encoding ++ "Deserialize(Uint8List input)  \x7b",
         "   var deserializer = new " ++ camelCase encoding ++ "Deserializer(input);",
         "    " ++ name ++ " value = deserialize(deserializer);",
         "    if (deserializer.get_buffer_offset() < input.length) \x7b",
         "         throw new Exception(\"Some input bytes were not read\");",
         "    \x7d",
         "    return value;",
         "\x7d"]
    ∧ (offset < len →
        decodeFromBytesGuard v offset len = .error "Some input bytes were not read")
    ∧ (offset = len → decodeFromBytesGuard v offset len = .ok v) := by
  refine ⟨rfl, ?_, ?_⟩
  · intro h
    rw [decodeFromBytesGuard, if_pos h]
  · intro h
    rw [decodeFromBytesGuard, if_neg (by omega)]

/-- Witness for C5: a two-byte offset on a three-byte input throws, a
three-byte offset returns the value. -/
theorem claim5_trailing_bytes_witness :
    decodeFromBytesGuard 7 2 3 = .error "Some input bytes were not read"
    ∧ decodeFromBytesGuard 7 3 3 = .ok 7 :=
  ⟨(claim5_trailing_bytes "Foo" "bcs" 7 2 3).2.1 (by decide),
   (claim5_trailing_bytes "Foo" "bcs" 7 3 3).2.2 rfl⟩

/-- C6: the generator fails fast when an unresolved placeholder reaches it:
the type mapper fails on the placeholder rather than emitting a type, and
variant emission fails on a placeholder variant format. -/
theorem claim6_unresolved_fails :
    quoteType .Variable = .error "unexpected value"
    ∧ ∀ (config : CodeGeneratorConfig) (base : String) (index : Nat)
        (name actualName : String),
        outputVariant config base index name .Variable actualName
          = .error "incorrect value" :=
  ⟨rfl, fun _ _ _ _ _ => rfl⟩

/-- C7: for every fixed-size array of declared size N, the emitted serialize
helper asserts that the in-memory length equals N before the element loop
and writes no length prefix, and the emitted deserialize helper loops
exactly N times without reading a length; on the concrete array4 of uint8
shape, no emitted line mentions the length-prefix primitives at all. -/
theorem claim7_fixed_array (name : String) (content : Format) (size : Nat)
    (t stmt d : String)
    (ht : quoteType content = .ok t)
    (hstmt : quoteSerializeValue "item" content = .ok stmt)
    (hd : quoteDeserialize content = .ok d) :
    outputSerializationHelper name (.TupleArray content size)
      = .ok (("static void serialize_" ++ name ++ "(" ++ ("List<" ++ t ++ ">")
                ++ " value, BinarySerializer serializer) \x7b")
             :: ["assert (value.length == " ++ toString size ++ ");",
                 "for (" ++ t ++ " item in value) \x7b",
                 "    " ++ stmt,
                 "\x7d"]
             ++ ["\x7d", ""])
    ∧ outputDeserializationHelper name (.TupleArray content size)
      = .ok (("static " ++ ("List<" ++ t ++ ">") ++ " deserialize_" ++ name
                ++ "(BinaryDeserializer deserializer) \x7b")
             :: ["List<" ++ t ++ "> obj = new List<" ++ t ++ ">.filled("
                   ++ toString size ++ ", 0);",
                 "for (int i = 0; i < " ++ toString size ++ "; i++) \x7b",
                 "    obj[i] = " ++ d ++ ";",
                 "\x7d",
                 "return obj;"]
             ++ ["\x7d", ""])
    ∧ (∃ lines, outputSerializationHelper "array4_u8_array" (.TupleArray .U8 4) = .ok lines
        ∧ ∀ l ∈ lines, ¬ ("serialize_len".toList <:+: l.toList))
    ∧ (∃ lines, outputDeserializationHelper "array4_u8_array" (.TupleArray .U8 4) = .ok lines
        ∧ ∀ l ∈ lines, ¬ ("deserialize_len".toList <:+: l.toList)) := by
  refine ⟨?_, ?_, ⟨_, rfl, by decide⟩, ⟨_, rfl, by decide⟩⟩
  · simp only [outputSerializationHelper, outputSerializationHelper.body,
      quoteType, ht, hstmt]
  · simp only [outputDeserializationHelper, outputDeserializationHelper.body,
      quoteType, ht, hd]

/-- Witness for C7: the serialize helper emitted for array4 of uint8. -/
theorem claim7_fixed_array_witness :
    outputSerializationHelper "array4_u8_array" (.TupleArray .U8 4)
      = .ok (("static void serialize_" ++ "array4_u8_array" ++ "("
                ++ ("List<" ++ "int" ++ ">")
                ++ " value, BinarySerializer serializer) \x7b")
             :: ["assert (value.length == " ++ toString 4 ++ ");",
                 "for (" ++ "int" ++ " item in value) \x7b",
                 "    " ++ "serializer.serialize_u8(item);",
                 "\x7d"]
             ++ ["\x7d", ""]) :=
  (claim7_fixed_array "array4_u8_array" Format.U8 4 "int"
    "serializer.serialize_u8(item);" "deserializer.deserialize_u8()" rfl rfl rfl).1

/-- A configuration declaring the external definition "Foo" under the
namespace "com.example". -/
def cfgExternal : CodeGeneratorConfig :=
  ⟨"my_module", true, ["bcs"], [("com.example", ["Foo"])]⟩

/-- C8 (code bug): CodeGenerator::new computes the qualified names of the
configured external definitions and then drops them — the constructed
generator keeps only the config — and quote_qualified_name returns every
name unchanged, so the type expression emitted for the external reference
"Foo" is the unqualified "Foo", not "com.example.Foo". -/
theorem claim8_external_not_qualified :
    externalQualifiedNames cfgExternal = [("Foo", "com.example.Foo")]
    ∧ quoteQualifiedName "Foo" = "Foo"
    ∧ quoteType (.TypeName "Foo") = .ok "Foo"
    ∧ "Foo" ≠ "com.example.Foo" :=
  ⟨rfl, rfl, rfl, by decide⟩

/-- C9 (code bug): the emitted JSON decode does not mirror the emitted JSON
encode on every field format: a tuple field is encoded under its key but
decoded by the vacuous self-assignment that never reads json, an optional
field is encoded unwrapped but decoded by assigning the raw JSON value
without rebuilding the optional wrapper, and a map field is encoded through
its toJson but decoded through Bytes.fromJson. -/
theorem claim9_json_not_mirrored :
    toJson ⟨"t", .Tuple [.U8, .U8]⟩ = "\"t\" : t "
    ∧ fromJson ⟨"t", .Tuple [.U8, .U8]⟩ = .ok "t = t"
    ∧ toJson ⟨"o", .Option .U32⟩ = "\"o\" : o.isEmpty?null:o.value "
    ∧ fromJson ⟨"o", .Option .U32⟩ = .ok "o = json[\x27o\x27]"
    ∧ toJson ⟨"m", .Map .Str .U8⟩ = "\"m\" : m.toJson() "
    ∧ fromJson ⟨"m", .Map .Str .U8⟩ = .ok "m = Bytes.fromJson(json[\x27m\x27])" :=
  ⟨rfl, rfl, rfl, rfl, rfl, rfl⟩

/-- C10: a variant's emitted toJson adds, after one key per field, a "type"
key holding the numeric tag and a "type_name" key holding the original
variant name; with serialization configured the enum base class's JSON
decoder reads the "type" key and switches over exactly the declared tags
with a throwing default; the concrete enum declaring tags 0, 1, 2 has no
case line for tag 5. -/
theorem claim10_variant_json (config : CodeGeneratorConfig)
    (name actualName : String) (index : Nat)
    (fields : List (Named Format)) (variants : List (Nat × Named VariantFormat))
    (hcfg : config.serialization = true) :
    toJsonLines (some index) actualName fields false
      = ["", "dynamic toJson() => \x7b"]
        ++ fields.map (fun f => toJson f ++ ",")
        ++ ["\"type\" : " ++ toString index ++ ",",
            "\"type_name\" : \"" ++ actualName ++ "\""]
        ++ ["\x7d;"]
    ∧ (∃ pre post, enumBaseClassLines config name variants
        = pre
          ++ ["", "static " ++ name ++ " fromJson(dynamic json)\x7b",
              "  final type = json[\x27type\x27] as int;",
              "  switch (type) \x7b"]
          ++ variants.map (fun v =>
               "case " ++ toString v.1 ++ ": return " ++ name ++ v.2.name
                 ++ "Item.loadJson(json);")
          ++ ["default: throw new Exception(\"Unknown type for " ++ name
                ++ ": \" + type.toString());"]
          ++ post)
    ∧ "case 5: return EFItem.loadJson(json);"
        ∉ enumBaseClassLines cfgBcs "E" enumVariants012 := by
  refine ⟨rfl, ?_, by decide⟩
  refine ⟨["", "abstract class " ++ name ++ " \x7b", name ++ "();"]
      ++ (["", "void serialize(BinarySerializer serializer);"]
          ++ ["", "static " ++ name ++ " deserialize(BinaryDeserializer deserializer) \x7b"]
          ++ ["int index = deserializer.deserialize_variant_index();",
              "switch (index) \x7b"]
          ++ variants.map (fun v =>
               "case " ++ toString v.1 ++ ": return " ++ name ++ v.2.name
                 ++ "Item.load(deserializer);")
          ++ ["default: throw new Exception(\"Unknown variant index for " ++ name
                ++ ": \" + index.toString());"]
          ++ ["\x7d", "\x7d"]
          ++ (config.encodings.map (fun e =>
                outputClassSerializeForEncoding e
                  ++ outputClassDeserializeForEncoding name e)).flatten),
      ["\x7d", "\x7d"] ++ ["", "dynamic toJson();"] ++ ["\x7d", ""], ?_⟩
  rw [enumBaseClassLines, if_pos hcfg]
  simp [List.append_assoc]

/-- Witness for C10: the toJson section of a concrete unit variant at tag 2
named C. -/
theorem claim10_variant_json_witness :
    toJsonLines (some 2) "C" [] false
      = ["", "dynamic toJson() => \x7b"]
        ++ List.map (fun f => toJson f ++ ",") []
        ++ ["\"type\" : " ++ toString 2 ++ ",", "\"type_name\" : \"" ++ "C" ++ "\""]
        ++ ["\x7d;"] :=
  (claim10_variant_json cfgBcs "E" "C" 2 [] enumVariants012 rfl).1

end SerdeDart
